import Mathlib

/-!
Verification of the ducky DuckDB NIF bridge (src/priv/ducky_nif/src/lib.rs).

The Rust source is shallowly embedded: machine integers are modelled as
`Int`/`Nat` with explicit two's-complement wrapping (`wrap64`) exactly where
the Rust `i64` arithmetic is unchecked, fallible operations return `Except`,
and the engine (DuckDB) is an abstract collaborator modelled by the data it
hands back (`PreparedStmt`).
-/

namespace Ducky

/-- The signed 64-bit maximum, `i64::MAX` in the Rust source. -/
def I64_MAX : Int := 9223372036854775807

/-- The signed 64-bit minimum, `i64::MIN` in the Rust source. -/
def I64_MIN : Int := -9223372036854775808

/-- An integer representable as a Rust `i64`. -/
def inI64 (x : Int) : Prop := I64_MIN ≤ x ∧ x ≤ I64_MAX

instance decInI64 (x : Int) : Decidable (inI64 x) :=
  inferInstanceAs (Decidable (I64_MIN ≤ x ∧ x ≤ I64_MAX))

/-- Two's-complement wrap-around of release-mode Rust `i64` arithmetic:
the result an unchecked `i64` operation stores when the mathematical value
is `x`. -/
def wrap64 (x : Int) : Int :=
  (x + 9223372036854775808) % 18446744073709551616 - 9223372036854775808

theorem wrap64_eq_self (x : Int) (h : inI64 x) : wrap64 x = x := by
  rcases h with ⟨h1, h2⟩
  unfold wrap64
  unfold I64_MIN at h1
  unfold I64_MAX at h2
  omega

/-- `DuckyError` from the source (lines 37-42): the closed set of error
kinds the NIF can return to the host. -/
inductive DuckyError
| ConnectionFailed (msg : String)
| QuerySyntaxError (msg : String)
| DatabaseError (msg : String)
deriving DecidableEq, Repr

/-- `duckdb::types::TimeUnit`: the declared unit of a temporal value. -/
inductive TimeUnit
| Second
| Millisecond
| Microsecond
| Nanosecond
deriving DecidableEq, Repr

/-- `normalize_to_micros` (source lines 181-189): unchecked `i64`
arithmetic, so the multiplications wrap; the division is Rust `/` on `i64`,
truncation toward zero (`Int.div`). -/
def normalize_to_micros (time_unit : TimeUnit) (value : Int) : Int :=
  match time_unit with
  | .Second => wrap64 (value * 1000000)
  | .Millisecond => wrap64 (value * 1000)
  | .Microsecond => value
  | .Nanosecond => Int.tdiv value 1000

/-- The interval arithmetic of `value_to_term`'s `Interval` arm (source
lines 229-240): `(months as i64) * 30 * 24 * 60 * 60 * 1_000_000_000`
and the day product and the sum, all unchecked `i64`. -/
def interval_total_nanos (months days nanos : Int) : Int :=
  let month_nanos := wrap64 (months * 30 * 24 * 60 * 60 * 1000000000)
  let day_nanos := wrap64 (days * 24 * 60 * 60 * 1000000000)
  wrap64 (month_nanos + day_nanos + nanos)

/-- UTF-8 continuation byte, `0x80..=0xBF`. -/
def isCont (b : Nat) : Bool := 128 ≤ b && b ≤ 191

/-- Validity of a byte sequence as strict UTF-8, the acceptance condition of
`std::str::from_utf8` used at source line 215 (rejects overlong forms,
surrogates and code points above U+10FFFF). -/
def validUtf8 : List Nat → Bool
| [] => true
| b0 :: rest =>
  if b0 ≤ 127 then validUtf8 rest
  else if 194 ≤ b0 && b0 ≤ 223 then
    match rest with
    | b1 :: r => isCont b1 && validUtf8 r
    | [] => false
  else if b0 = 224 then
    match rest with
    | b1 :: b2 :: r => (160 ≤ b1 && b1 ≤ 191) && isCont b2 && validUtf8 r
    | _ => false
  else if 225 ≤ b0 && b0 ≤ 236 then
    match rest with
    | b1 :: b2 :: r => isCont b1 && isCont b2 && validUtf8 r
    | _ => false
  else if b0 = 237 then
    match rest with
    | b1 :: b2 :: r => (128 ≤ b1 && b1 ≤ 159) && isCont b2 && validUtf8 r
    | _ => false
  else if 238 ≤ b0 && b0 ≤ 239 then
    match rest with
    | b1 :: b2 :: r => isCont b1 && isCont b2 && validUtf8 r
    | _ => false
  else if b0 = 240 then
    match rest with
    | b1 :: b2 :: b3 :: r => (144 ≤ b1 && b1 ≤ 191) && isCont b2 && isCont b3 && validUtf8 r
    | _ => false
  else if 241 ≤ b0 && b0 ≤ 243 then
    match rest with
    | b1 :: b2 :: b3 :: r => isCont b1 && isCont b2 && isCont b3 && validUtf8 r
    | _ => false
  else if b0 = 244 then
    match rest with
    | b1 :: b2 :: b3 :: r => (128 ≤ b1 && b1 ≤ 143) && isCont b2 && isCont b3 && validUtf8 r
    | _ => false
  else false

/-- One child field of an Arrow `StructArray` at the row being decoded, as
classified by the `field.data_type()` match of `encode_struct` (source lines
277-367): the concrete storage type together with the value the source
extracts at `row_idx`. `unsupportedCell` is the catch-all `_` arm. -/
inductive ArrowCell
| boolCell (b : Bool)
| int8 (i : Int)
| int16 (i : Int)
| int32 (i : Int)
| int64 (i : Int)
| uint8 (n : Nat)
| uint16 (n : Nat)
| uint32 (n : Nat)
| uint64 (n : Nat)
| float32 (bits : Nat)
| float64 (bits : Nat)
| utf8 (bytes : List Nat)
| binCell (bytes : List Nat)
| structCell (fields : List (String × Bool × ArrowCell))
| tsCell (u : TimeUnit) (v : Int)
| dateCell (d : Int)
| timeCell (u : TimeUnit) (v : Int)
| intervalCell (months days nanos : Int)
| unsupportedCell

/-- `duckdb::types::ValueRef`: one engine column value. Numeric payloads are
mathematical integers; width constraints appear as theorem hypotheses.
`Struct` carries the struct's fields at the row under decode, each as
(field name, is_null at that row, typed cell). `OtherType` stands for every
remaining `ValueRef` variant (the `other` arm at source line 242), carrying
its debug rendering. -/
inductive ValueRef
| Null
| Boolean (b : Bool)
| TinyInt (i : Int)
| SmallInt (i : Int)
| IntVal (i : Int)
| BigInt (i : Int)
| HugeInt (i : Int)
| UTinyInt (n : Nat)
| USmallInt (n : Nat)
| UInt (n : Nat)
| UBigInt (n : Nat)
| Float (bits : Nat)
| Double (bits : Nat)
| Text (bytes : List Nat)
| Blob (bytes : List Nat)
| Timestamp (u : TimeUnit) (v : Int)
| Date32 (d : Int)
| Time64 (u : TimeUnit) (v : Int)
| Interval (months days nanos : Int)
| Struct (fields : List (String × Bool × ArrowCell))
| OtherType (debugName : String)

/-- An Erlang term as produced by the NIF's encoders: atoms, integers,
floats (payload kept opaque), binaries (both text and blobs encode to
binaries), 2-tuples of a tag atom and an integer, and maps with string
keys (struct field names). -/
inductive ErlTerm
| atom (name : String)
| boolT (b : Bool)
| int (i : Int)
| floatT (bits : Nat)
| binary (bytes : List Nat)
| tagged (tag : String) (v : Int)
| mapT (entries : List (String × ErlTerm))

/-- The `ValueRef` variant `encode_struct` constructs for a child cell
(source lines 277-361); the `unsupportedCell` arm never reaches this
function (the source `continue`s before constructing a `ValueRef`). -/
def cellRef : ArrowCell → ValueRef
| .boolCell b => .Boolean b
| .int8 i => .TinyInt i
| .int16 i => .SmallInt i
| .int32 i => .IntVal i
| .int64 i => .BigInt i
| .uint8 n => .UTinyInt n
| .uint16 n => .USmallInt n
| .uint32 n => .UInt n
| .uint64 n => .UBigInt n
| .float32 b => .Float b
| .float64 b => .Double b
| .utf8 bs => .Text bs
| .binCell bs => .Blob bs
| .structCell fs => .Struct fs
| .tsCell u v => .Timestamp u v
| .dateCell d => .Date32 d
| .timeCell u v => .Time64 u v
| .intervalCell m d n => .Interval m d n
| .unsupportedCell => .Null

/-- Whether a cell fell into the `_` arm of the `data_type()` match. -/
def ArrowCell.isUnsupportedType : ArrowCell → Bool
| .unsupportedCell => true
| _ => false

theorem cellRef_sizeOf (c : ArrowCell) : sizeOf (cellRef c) ≤ 1 + sizeOf c := by
  cases c <;> simp [cellRef]

mutual

/-- `value_to_term` (source lines 192-247): one engine value to one Erlang
term, or a decode error message. -/
def value_to_term : ValueRef → Except String ErlTerm
| .Null => .ok (.atom "null")
| .Boolean b => .ok (.boolT b)
| .TinyInt i => .ok (.int i)
| .SmallInt i => .ok (.int i)
| .IntVal i => .ok (.int i)
| .BigInt i => .ok (.int i)
| .HugeInt i => .ok (.int i)
| .UTinyInt n => .ok (.int n)
| .USmallInt n => .ok (.int n)
| .UInt n => .ok (.int n)
| .UBigInt n =>
  if (n : Int) ≤ I64_MAX then .ok (.int n)
  else .error ("Integer overflow: UBigInt value " ++ toString n ++
    " exceeds i64::MAX (9223372036854775807)")
| .Float bits => .ok (.floatT bits)
| .Double bits => .ok (.floatT bits)
| .Text bytes =>
  if validUtf8 bytes then .ok (.binary bytes) else .error "Invalid UTF-8"
| .Blob bytes => .ok (.binary bytes)
| .Timestamp u v => .ok (.tagged "timestamp" (normalize_to_micros u v))
| .Date32 d => .ok (.tagged "date" d)
| .Time64 u v => .ok (.tagged "time" (normalize_to_micros u v))
| .Interval months days nanos =>
  .ok (.tagged "interval" (interval_total_nanos months days nanos))
| .Struct fields => Except.map ErlTerm.mapT (encode_struct fields)
| .OtherType debugName => .error ("Unsupported ValueRef: " ++ debugName)
termination_by v => sizeOf v

/-- `encode_struct` (source lines 250-374): iterate the struct's fields in
order; a field null at the row maps to the null atom; a field of unmapped
storage type maps to the null atom (the `_` arm); otherwise build the
child `ValueRef` and recurse through `value_to_term`, propagating its
failure. -/
def encode_struct : List (String × Bool × ArrowCell) →
    Except String (List (String × ErlTerm))
| [] => .ok []
| (field_name, isnull, cell) :: rest =>
  if isnull then
    Except.map (fun m => (field_name, ErlTerm.atom "null") :: m) (encode_struct rest)
  else if cell.isUnsupportedType then
    Except.map (fun m => (field_name, ErlTerm.atom "null") :: m) (encode_struct rest)
  else
    match value_to_term (cellRef cell) with
    | .error e => .error e
    | .ok t => Except.map (fun m => (field_name, t) :: m) (encode_struct rest)
termination_by l => sizeOf l
decreasing_by
  all_goals
    have h := cellRef_sizeOf cell
    simp only [List.cons.sizeOf_spec, Prod.mk.sizeOf_spec] at h ⊢
    omega

end

/-! ## Statement executor (source lines 377-423)

The engine is an external collaborator; a prepared statement is modelled by
what the engine answers on it: the outcome of `stmt.query(params)` (either
the materialized row stream or a rejection message), the outcome of
`stmt.execute(params)`, and the statement's column names
(`stmt.column_name(i)` errs for out-of-range `i`, modelled by `List.get?`).
-/

/-- Abstract model of a prepared DuckDB statement: the engine-side answers
the executor can observe. -/
structure PreparedStmt where
  colNames : List String
  queryRows : Except String (List (List ValueRef))
  executeRes : Except String Nat

/-- The `map_err` closure at source lines 401-403: any `value_to_term`
failure is collapsed to `DatabaseError("Failed to convert value")`. -/
def convert_value (v : ValueRef) : Except DuckyError ErlTerm :=
  match value_to_term v with
  | .ok t => .ok t
  | .error _ => .error (.DatabaseError "Failed to convert value")

/-- `row.get_ref(i)?` at source line 400: an out-of-range column index is a
`duckdb::Error`, surfacing as `DatabaseError` through the `From` impl. -/
def getRef (row : List ValueRef) (i : Nat) : Except DuckyError ValueRef :=
  match row.get? i with
  | some v => .ok v
  | none => .error (.DatabaseError "Invalid column index")

/-- The inner column loop of `execute_statement` (source lines 398-405):
read and convert the columns of one row at the given indices. -/
def decodeCols (row : List ValueRef) : List Nat → Except DuckyError (List ErlTerm)
| [] => .ok []
| i :: is => do
  let v ← getRef row i
  let t ← convert_value v
  let ts ← decodeCols row is
  .ok (t :: ts)

/-- One row read at column indices `0..count` (source line 399). -/
def decodeRowAt (count : Nat) (row : List ValueRef) : Except DuckyError (List ErlTerm) :=
  decodeCols row (List.range count)

/-- The row loop of `execute_statement` (source lines 390-408):
`detected_column_count` starts at 0 and is set from the first row whose
column count is consulted while it is still 0; returns the decoded rows and
the final detected count. -/
def runRows : List (List ValueRef) → Nat → Except DuckyError (List (List ErlTerm) × Nat)
| [], count => .ok ([], count)
| row :: rest, count =>
  let c := if count = 0 then row.length else count
  do
    let vals ← decodeRowAt c row
    let p ← runRows rest c
    .ok (vals :: p.1, p.2)

/-- `execute_statement` (source lines 377-423). The argument is the outcome
of `connection.prepare(sql)`: a prepare failure surfaces via `?` as
`DatabaseError`. On query success, rows are decoded and column names
resolved afterwards by `filter_map` over `stmt.column_name(i).ok()`; on
query rejection the statement is retried on the engine's execute path. -/
def execute_statement (prep : Except String PreparedStmt) :
    Except DuckyError (List String × List (List ErlTerm)) :=
  match prep with
  | .error e => .error (.DatabaseError e)
  | .ok stmt =>
    match stmt.queryRows with
    | .ok rows =>
      match runRows rows 0 with
      | .error e => .error e
      | .ok (raw_rows, count) =>
        let column_names := (List.range count).filterMap (fun i => stmt.colNames.get? i)
        .ok (column_names, raw_rows)
    | .error _ =>
      match stmt.executeRes with
      | .ok _ => .ok ([], [])
      | .error e => .error (.DatabaseError e)

/-! ## Connection lock and lifecycle (source lines 66-119, 148-163)

`Mutex::lock` returns `Err(PoisonError)` exactly when a prior holder
panicked while holding the lock; the connection's lock state is modelled
directly, and the `PoisonError` display text is the std one. -/

/-- Whether the connection's mutex is poisoned. -/
inductive LockState
| healthy
| poisoned
deriving DecidableEq, Repr

/-- Model of `conn.connection.lock()`. -/
def lockResult : LockState → Except String Unit
| .healthy => .ok ()
| .poisoned => .error "poisoned lock: another task failed inside"

/-- `close` (source lines 108-119): validates the lock is acquirable and
returns the `nil` atom; a poisoned lock is a `DatabaseError`. -/
def close (st : LockState) : Except DuckyError String :=
  match lockResult st with
  | .error e => .error (.DatabaseError ("Connection mutex poisoned: " ++ e))
  | .ok _ => .ok "nil"

/-! ## Parameter encoder (source lines 428-459)

Host terms and the rustler decoders the source probes, in source order. -/

/-- An Erlang term arriving from the host as a bind parameter. -/
inductive HostTerm
| atom (name : String)
| integer (i : Int)
| floatT (bits : Nat)
| binary (bytes : List Nat)
| listT (items : List HostTerm)
| tupleT (items : List HostTerm)

/-- `rustler::types::atom::Atom::from_term`: succeeds exactly on atoms. -/
def atomFromTerm : HostTerm → Option String
| .atom a => some a
| _ => none

/-- `term.decode::<bool>()`: the boolean atoms. -/
def decodeBool : HostTerm → Option Bool
| .atom a =>
  if a = "true" then some true
  else if a = "false" then some false
  else none
| _ => none

/-- `term.decode::<i64>()`: integer terms within the signed 64-bit range
(a bignum outside the range fails to decode). -/
def decodeI64 : HostTerm → Option Int
| .integer i => if I64_MIN ≤ i ∧ i ≤ I64_MAX then some i else none
| _ => none

/-- `term.decode::<f64>()`: float terms. -/
def decodeF64 : HostTerm → Option Nat
| .floatT bits => some bits
| _ => none

/-- `term.decode::<String>()`: binaries holding valid UTF-8. -/
def decodeString : HostTerm → Option (List Nat)
| .binary bs => if validUtf8 bs then some bs else none
| _ => none

/-- A DuckDB bind value (`Box<dyn ToSql>` contents in the source). -/
inductive BindParam
| nullP
| boolP (b : Bool)
| intP (i : Int)
| floatP (bits : Nat)
| textP (bytes : List Nat)
deriving Repr

/-- The error message of the encoder's fall-through arm (source line 457). -/
def unsupportedParamMsg : String :=
  "Unsupported parameter type: cannot convert term to DuckDB parameter"

/-- The decode chain after the null/nil atom check of
`term_to_duckdb_param` (source lines 440-458): bool, then i64, then f64,
then String, first success wins. -/
def tryAfterAtom (t : HostTerm) : Except DuckyError BindParam :=
  match decodeBool t with
  | some b => .ok (.boolP b)
  | none =>
    match decodeI64 t with
    | some i => .ok (.intP i)
    | none =>
      match decodeF64 t with
      | some f => .ok (.floatP f)
      | none =>
        match decodeString t with
        | some s => .ok (.textP s)
        | none => .error (.DatabaseError unsupportedParamMsg)

/-- `term_to_duckdb_param` (source lines 428-459): a null/nil atom short
circuits to the null bind value, then the typed decode chain runs. -/
def term_to_duckdb_param (t : HostTerm) : Except DuckyError BindParam :=
  match atomFromTerm t with
  | some a =>
    if a = "null" || a = "nil" then .ok .nullP
    else tryAfterAtom t
  | none => tryAfterAtom t

/-- The parameter loop of `execute_query` (source lines 154-158): encode in
order, aborting on the first failure. -/
def encodeParams : List HostTerm → Except DuckyError (List BindParam)
| [] => .ok []
| t :: rest => do
  let p ← term_to_duckdb_param t
  let ps ← encodeParams rest
  .ok (p :: ps)

/-- `execute_query` (source lines 140-164): acquire the lock (poisoning is
a `DatabaseError`), encode the parameters, then run the statement. The
prepared statement stands for the engine's answers to
`prepare(sql)`/`query`/`execute` on this call. -/
def execute_query (st : LockState) (params : List HostTerm)
    (prep : Except String PreparedStmt) :
    Except DuckyError (List String × List (List ErlTerm)) :=
  match lockResult st with
  | .error e => .error (.DatabaseError ("Failed to lock connection: " ++ e))
  | .ok _ => do
    let _ ← encodeParams params
    execute_statement prep

/-! ## Evaluation lemmas

`value_to_term` and `encode_struct` are compiled by well-founded recursion,
so their defining equations are exposed as rewrite lemmas for use on
concrete and symbolic inputs. -/

@[simp] theorem except_map_ok {α β ε : Type} (f : α → β) (x : α) :
    Except.map f (Except.ok x : Except ε α) = .ok (f x) := rfl

@[simp] theorem except_map_error {α β ε : Type} (f : α → β) (e : ε) :
    Except.map f (Except.error e : Except ε α) = .error e := rfl

@[simp] theorem except_bind_ok {α β ε : Type} (x : α) (f : α → Except ε β) :
    (Except.ok x >>= f) = f x := rfl

@[simp] theorem except_bind_error {α β ε : Type} (e : ε) (f : α → Except ε β) :
    ((Except.error e : Except ε α) >>= f) = .error e := rfl

@[simp] theorem vt_Null : value_to_term .Null = .ok (.atom "null") := by
  simp [value_to_term]

@[simp] theorem vt_Boolean (b : Bool) :
    value_to_term (.Boolean b) = .ok (.boolT b) := by simp [value_to_term]

@[simp] theorem vt_TinyInt (i : Int) :
    value_to_term (.TinyInt i) = .ok (.int i) := by simp [value_to_term]

@[simp] theorem vt_SmallInt (i : Int) :
    value_to_term (.SmallInt i) = .ok (.int i) := by simp [value_to_term]

@[simp] theorem vt_IntVal (i : Int) :
    value_to_term (.IntVal i) = .ok (.int i) := by simp [value_to_term]

@[simp] theorem vt_BigInt (i : Int) :
    value_to_term (.BigInt i) = .ok (.int i) := by simp [value_to_term]

@[simp] theorem vt_HugeInt (i : Int) :
    value_to_term (.HugeInt i) = .ok (.int i) := by simp [value_to_term]

@[simp] theorem vt_UTinyInt (n : Nat) :
    value_to_term (.UTinyInt n) = .ok (.int n) := by simp [value_to_term]

@[simp] theorem vt_USmallInt (n : Nat) :
    value_to_term (.USmallInt n) = .ok (.int n) := by simp [value_to_term]

@[simp] theorem vt_UInt (n : Nat) :
    value_to_term (.UInt n) = .ok (.int n) := by simp [value_to_term]

@[simp] theorem vt_UBigInt (n : Nat) :
    value_to_term (.UBigInt n) =
      if (n : Int) ≤ I64_MAX then .ok (.int n)
      else .error ("Integer overflow: UBigInt value " ++ toString n ++
        " exceeds i64::MAX (9223372036854775807)") := by
  simp [value_to_term]

@[simp] theorem vt_Float (bits : Nat) :
    value_to_term (.Float bits) = .ok (.floatT bits) := by simp [value_to_term]

@[simp] theorem vt_Double (bits : Nat) :
    value_to_term (.Double bits) = .ok (.floatT bits) := by simp [value_to_term]

@[simp] theorem vt_Text (bytes : List Nat) :
    value_to_term (.Text bytes) =
      if validUtf8 bytes then .ok (.binary bytes) else .error "Invalid UTF-8" := by
  simp [value_to_term]

@[simp] theorem vt_Blob (bytes : List Nat) :
    value_to_term (.Blob bytes) = .ok (.binary bytes) := by simp [value_to_term]

@[simp] theorem vt_Timestamp (u : TimeUnit) (v : Int) :
    value_to_term (.Timestamp u v) =
      .ok (.tagged "timestamp" (normalize_to_micros u v)) := by simp [value_to_term]

@[simp] theorem vt_Date32 (d : Int) :
    value_to_term (.Date32 d) = .ok (.tagged "date" d) := by simp [value_to_term]

@[simp] theorem vt_Time64 (u : TimeUnit) (v : Int) :
    value_to_term (.Time64 u v) =
      .ok (.tagged "time" (normalize_to_micros u v)) := by simp [value_to_term]

@[simp] theorem vt_Interval (months days nanos : Int) :
    value_to_term (.Interval months days nanos) =
      .ok (.tagged "interval" (interval_total_nanos months days nanos)) := by
  simp [value_to_term]

@[simp] theorem vt_Struct (fields : List (String × Bool × ArrowCell)) :
    value_to_term (.Struct fields) =
      Except.map ErlTerm.mapT (encode_struct fields) := by
  simp [value_to_term]

@[simp] theorem vt_OtherType (debugName : String) :
    value_to_term (.OtherType debugName) =
      .error ("Unsupported ValueRef: " ++ debugName) := by simp [value_to_term]

@[simp] theorem es_nil : encode_struct [] = .ok [] := by simp [encode_struct]

@[simp] theorem es_cons_null (field_name : String) (cell : ArrowCell)
    (rest : List (String × Bool × ArrowCell)) :
    encode_struct ((field_name, true, cell) :: rest) =
      Except.map (fun m => (field_name, ErlTerm.atom "null") :: m)
        (encode_struct rest) := by
  simp [encode_struct]

@[simp] theorem es_cons_unsupported (field_name : String)
    (rest : List (String × Bool × ArrowCell)) :
    encode_struct ((field_name, false, ArrowCell.unsupportedCell) :: rest) =
      Except.map (fun m => (field_name, ErlTerm.atom "null") :: m)
        (encode_struct rest) := by
  simp [encode_struct, ArrowCell.isUnsupportedType]

theorem es_cons_cell (field_name : String) (cell : ArrowCell)
    (rest : List (String × Bool × ArrowCell))
    (h : cell.isUnsupportedType = false) :
    encode_struct ((field_name, false, cell) :: rest) =
      match value_to_term (cellRef cell) with
      | .error e => .error e
      | .ok t => Except.map (fun m => (field_name, t) :: m) (encode_struct rest) := by
  rw [encode_struct]
  simp [h]

/-! ## Claims -/

/-- C2: a 64-bit unsigned engine value decodes to the equal signed integer
when it is at most `i64::MAX`, and otherwise fails decode with a message
carrying the offending value and the limit, surfacing as
`DatabaseError` at the public boundary; it is never wrapped or truncated. -/
theorem c2_ubigint_range_checked (n : Nat) (_h64 : n < 18446744073709551616) :
    ((n : Int) ≤ I64_MAX →
      value_to_term (ValueRef.UBigInt n) = .ok (ErlTerm.int n))
    ∧ (I64_MAX < (n : Int) →
      value_to_term (ValueRef.UBigInt n) =
        .error ("Integer overflow: UBigInt value " ++ toString n ++
          " exceeds i64::MAX (9223372036854775807)")
      ∧ convert_value (ValueRef.UBigInt n) =
        .error (.DatabaseError "Failed to convert value")) := by
  constructor
  · intro h
    simp [h]
  · intro h
    have h2 : ¬ ((n : Int) ≤ I64_MAX) := not_le.mpr h
    constructor
    · simp [h2]
    · simp [convert_value, h2]

/-- C2 witness: `9223372036854775807` decodes to the equal signed value;
`18446744073709551615` fails with the value and the limit in the message
and surfaces as `DatabaseError("Failed to convert value")`. -/
theorem c2_witness :
    value_to_term (ValueRef.UBigInt 9223372036854775807) =
      .ok (ErlTerm.int 9223372036854775807)
    ∧ value_to_term (ValueRef.UBigInt 18446744073709551615) =
      .error ("Integer overflow: UBigInt value 18446744073709551615 exceeds i64::MAX (9223372036854775807)")
    ∧ convert_value (ValueRef.UBigInt 18446744073709551615) =
      .error (.DatabaseError "Failed to convert value") := by
  have h1 := (c2_ubigint_range_checked 9223372036854775807 (by norm_num)).1
    (by norm_num [I64_MAX])
  have h2 := (c2_ubigint_range_checked 18446744073709551615 (by norm_num)).2
    (by norm_num [I64_MAX])
  exact ⟨h1, h2.1.trans rfl, h2.2⟩

/-- C3: timestamps and times-of-day are normalized to microseconds by their
declared unit: seconds multiply by 1,000,000, milliseconds by 1,000,
microseconds pass through, nanoseconds integer-divide by 1,000 truncating
toward zero. The multiplications are unchecked `i64`, so the product form
holds whenever it is representable. -/
theorem c3_temporal_normalization (v : Int) (_hv : inI64 v) :
    (inI64 (v * 1000000) →
      value_to_term (ValueRef.Timestamp TimeUnit.Second v) =
        .ok (.tagged "timestamp" (v * 1000000))
      ∧ value_to_term (ValueRef.Time64 TimeUnit.Second v) =
        .ok (.tagged "time" (v * 1000000)))
    ∧ (inI64 (v * 1000) →
      value_to_term (ValueRef.Timestamp TimeUnit.Millisecond v) =
        .ok (.tagged "timestamp" (v * 1000))
      ∧ value_to_term (ValueRef.Time64 TimeUnit.Millisecond v) =
        .ok (.tagged "time" (v * 1000)))
    ∧ (value_to_term (ValueRef.Timestamp TimeUnit.Microsecond v) =
        .ok (.tagged "timestamp" v)
      ∧ value_to_term (ValueRef.Time64 TimeUnit.Microsecond v) =
        .ok (.tagged "time" v))
    ∧ (value_to_term (ValueRef.Timestamp TimeUnit.Nanosecond v) =
        .ok (.tagged "timestamp" (Int.tdiv v 1000))
      ∧ value_to_term (ValueRef.Time64 TimeUnit.Nanosecond v) =
        .ok (.tagged "time" (Int.tdiv v 1000))) := by
  refine ⟨fun h => ?_, fun h => ?_, ?_, ?_⟩
  · constructor <;> simp [normalize_to_micros, wrap64_eq_self _ h]
  · constructor <;> simp [normalize_to_micros, wrap64_eq_self _ h]
  · constructor <;> simp [normalize_to_micros]
  · constructor <;> simp [normalize_to_micros]

/-- C3 witness: millisecond raw value 1000 decodes to 1,000,000
microseconds; nanosecond raw value 1500 decodes to 1 microsecond, not 2. -/
theorem c3_witness :
    value_to_term (ValueRef.Timestamp TimeUnit.Millisecond 1000) =
      .ok (ErlTerm.tagged "timestamp" 1000000)
    ∧ value_to_term (ValueRef.Time64 TimeUnit.Nanosecond 1500) =
      .ok (ErlTerm.tagged "time" 1) := by
  constructor
  · have h := ((c3_temporal_normalization 1000 (by decide)).2.1 (by decide)).1
    simpa using h
  · have h := ((c3_temporal_normalization 1500 (by decide)).2.2.2).2
    rw [show Int.tdiv 1500 1000 = 1 from by decide] at h
    exact h

/-- C4: an interval (months, days, nanos) decodes to the single
total-nanoseconds scalar `months*30*86400*10^9 + days*86400*10^9 + nanos`
(the 1-month-equals-30-days approximation), whenever the products and sum
fit the unchecked `i64` arithmetic. -/
theorem c4_interval_collapse (months days nanos : Int)
    (_hm : -2147483648 ≤ months ∧ months ≤ 2147483647)
    (_hd : -2147483648 ≤ days ∧ days ≤ 2147483647)
    (_hn : inI64 nanos)
    (h1 : inI64 (months * 30 * 86400 * 1000000000))
    (h2 : inI64 (days * 86400 * 1000000000))
    (h3 : inI64 (months * 30 * 86400 * 1000000000 + days * 86400 * 1000000000 + nanos)) :
    value_to_term (ValueRef.Interval months days nanos) =
      .ok (ErlTerm.tagged "interval"
        (months * 30 * 86400 * 1000000000 + days * 86400 * 1000000000 + nanos)) := by
  have e1 : months * 30 * 24 * 60 * 60 * 1000000000 =
      months * 30 * 86400 * 1000000000 := by ring
  have e2 : days * 24 * 60 * 60 * 1000000000 = days * 86400 * 1000000000 := by ring
  simp [interval_total_nanos, e1, e2, wrap64_eq_self _ h1, wrap64_eq_self _ h2,
    wrap64_eq_self _ h3]

/-- C4 witness: (months=1, days=0, nanos=0) decodes to
2,592,000,000,000,000 nanoseconds; (months=0, days=1, nanos=0) decodes to
86,400,000,000,000. -/
theorem c4_witness :
    value_to_term (ValueRef.Interval 1 0 0) =
      .ok (ErlTerm.tagged "interval" 2592000000000000)
    ∧ value_to_term (ValueRef.Interval 0 1 0) =
      .ok (ErlTerm.tagged "interval" 86400000000000) := by
  constructor
  · have h1 := c4_interval_collapse 1 0 0 (by decide) (by decide) (by decide)
      (by decide) (by decide) (by decide)
    simpa using h1
  · have h2 := c4_interval_collapse 0 1 0 (by decide) (by decide) (by decide)
      (by decide) (by decide) (by decide)
    simpa using h2

/-- C10: the temporal and interval arithmetic is unchecked signed 64-bit:
a second-unit timestamp with raw value 2^62 (which exceeds
i64::MAX / 1,000,000) decodes successfully to a wrapped value (here 0)
instead of the mathematical product, and an interval of 10,000 months
wraps to 7,473,255,926,290,448,384 instead of the mathematical
25,920,000,000,000,000,000 — neither is reported as a decode failure. -/
theorem c10_unchecked_wraparound :
    value_to_term (ValueRef.Timestamp TimeUnit.Second 4611686018427387904) =
      .ok (ErlTerm.tagged "timestamp" 0)
    ∧ (4611686018427387904 * 1000000 : Int) ≠ 0
    ∧ value_to_term (ValueRef.Interval 10000 0 0) =
      .ok (ErlTerm.tagged "interval" 7473255926290448384)
    ∧ (10000 * 30 * 86400 * 1000000000 : Int) ≠ 7473255926290448384 := by
  refine ⟨?_, by decide, ?_, by decide⟩
  · have e : normalize_to_micros TimeUnit.Second 4611686018427387904 = 0 := by decide
    simp [e]
  · have e : interval_total_nanos 10000 0 0 = 7473255926290448384 := by decide
    simp [e]

/-- Whether a host term matches one of the parameter types the encoder
supports: null/nil atom, boolean, in-range 64-bit signed integer, 64-bit
float, or valid-UTF-8 text. -/
def isNullAtomTerm (t : HostTerm) : Bool :=
  match atomFromTerm t with
  | some a => a = "null" || a = "nil"
  | none => false

/-- The disjunction of the five probes of the parameter encoder. -/
def matchesSupportedParamType (t : HostTerm) : Bool :=
  isNullAtomTerm t || (decodeBool t).isSome || (decodeI64 t).isSome ||
    (decodeF64 t).isSome || (decodeString t).isSome

/-- C1 counterexample: the claim asserts a distinct
`UnsupportedParameterError` kind, but `DuckyError` has no such kind; on a
term matching no supported type the encoder returns the catch-all
`DatabaseError` — the very same kind the lock-poisoning path (and every
engine failure) uses — so the error kind is not distinct. -/
theorem c1_counterexample_database_error_kind :
    term_to_duckdb_param (HostTerm.tupleT []) =
      .error (DuckyError.DatabaseError
        "Unsupported parameter type: cannot convert term to DuckDB parameter")
    ∧ close LockState.poisoned =
      .error (DuckyError.DatabaseError
        "Connection mutex poisoned: poisoned lock: another task failed inside") :=
  ⟨rfl, rfl⟩

/-- C1 (amended): for every bind term that matches none of the supported
parameter types, the encoder fails with the catch-all `DatabaseError` kind
(there is no distinct `UnsupportedParameterError` kind) whose message names
that the term could not be converted. -/
theorem c1_amended_unsupported_param (t : HostTerm)
    (h : matchesSupportedParamType t = false) :
    term_to_duckdb_param t = .error (.DatabaseError unsupportedParamMsg) := by
  cases t with
  | atom a =>
    simp [matchesSupportedParamType, isNullAtomTerm, atomFromTerm, decodeBool,
      decodeI64, decodeF64, decodeString] at h
    simp [term_to_duckdb_param, atomFromTerm, tryAfterAtom, decodeBool,
      decodeI64, decodeF64, decodeString, h]
  | integer i =>
    simp [matchesSupportedParamType, isNullAtomTerm, atomFromTerm, decodeBool,
      decodeI64, decodeF64, decodeString] at h
    have hni : ¬ (I64_MIN ≤ i ∧ i ≤ I64_MAX) := fun hc =>
      absurd (h hc.1) (not_lt.mpr hc.2)
    simp [term_to_duckdb_param, atomFromTerm, tryAfterAtom, decodeBool,
      decodeI64, decodeF64, decodeString, hni]
  | floatT bits =>
    simp [matchesSupportedParamType, decodeF64] at h
  | binary bs =>
    simp [matchesSupportedParamType, isNullAtomTerm, atomFromTerm, decodeBool,
      decodeI64, decodeF64, decodeString] at h
    simp [term_to_duckdb_param, atomFromTerm, tryAfterAtom, decodeBool,
      decodeI64, decodeF64, decodeString, h]
  | listT items =>
    simp [term_to_duckdb_param, atomFromTerm, tryAfterAtom, decodeBool,
      decodeI64, decodeF64, decodeString]
  | tupleT items =>
    simp [term_to_duckdb_param, atomFromTerm, tryAfterAtom, decodeBool,
      decodeI64, decodeF64, decodeString]

/-- C1 witness: an empty list term matches no supported parameter type and
the encoder rejects it with the conversion message. -/
theorem c1_amended_witness :
    matchesSupportedParamType (HostTerm.listT []) = false
    ∧ term_to_duckdb_param (HostTerm.listT []) =
      .error (.DatabaseError unsupportedParamMsg) :=
  ⟨rfl, c1_amended_unsupported_param (HostTerm.listT []) rfl⟩

/-- C5: in a composite (struct) value, a child field null at the row maps
to the null marker, a child field of unmapped storage type maps to the null
marker, neither fails the row, and decoding of the remaining fields
proceeds (recursing into nested structs). -/
theorem c5_struct_null_and_unknown_fields
    (field_name : String) (cell : ArrowCell)
    (inner rest : List (String × Bool × ArrowCell))
    (m mi : List (String × ErlTerm))
    (h : encode_struct rest = .ok m)
    (hi : encode_struct inner = .ok mi) :
    encode_struct ((field_name, true, cell) :: rest) =
      .ok ((field_name, ErlTerm.atom "null") :: m)
    ∧ encode_struct ((field_name, false, ArrowCell.unsupportedCell) :: rest) =
      .ok ((field_name, ErlTerm.atom "null") :: m)
    ∧ encode_struct ((field_name, false, ArrowCell.structCell inner) :: rest) =
      .ok ((field_name, ErlTerm.mapT mi) :: m)
    ∧ value_to_term (ValueRef.Struct ((field_name, true, cell) :: rest)) =
      .ok (ErlTerm.mapT ((field_name, ErlTerm.atom "null") :: m)) := by
  refine ⟨?_, ?_, ?_, ?_⟩
  · simp [h]
  · simp [h]
  · rw [es_cons_cell field_name (ArrowCell.structCell inner) rest rfl]
    simp [cellRef, hi, h]
  · simp [h]

/-- C5 witness: a struct with one null field and one populated text field
decodes to the null marker and the text's binary; a struct with one
unknown-typed child decodes it to the null marker without failing. -/
theorem c5_witness :
    encode_struct
        [("a", true, ArrowCell.boolCell true), ("b", false, ArrowCell.utf8 [104, 105])] =
      .ok [("a", ErlTerm.atom "null"), ("b", ErlTerm.binary [104, 105])]
    ∧ encode_struct [("c", false, ArrowCell.unsupportedCell)] =
      .ok [("c", ErlTerm.atom "null")] := by
  constructor
  · have h := c5_struct_null_and_unknown_fields "a" (ArrowCell.boolCell true)
      [] [("b", false, ArrowCell.utf8 [104, 105])] [("b", ErlTerm.binary [104, 105])] []
      (by rw [es_cons_cell "b" (ArrowCell.utf8 [104, 105]) [] rfl]
          simp [cellRef, show validUtf8 [104, 105] = true from rfl])
      (by simp)
    exact h.1
  · have h := c5_struct_null_and_unknown_fields "c" ArrowCell.unsupportedCell
      [] [] [] [] (by simp) (by simp)
    exact h.2.1

/-- C6: when the engine rejects running the statement in query mode, the
executor does not surface the rejection: it falls back to the engine's
execute path, returning empty columns and rows on fallback success, and a
`DatabaseError` carrying the engine message on fallback failure. -/
theorem c6_query_rejection_fallback (stmt : PreparedStmt) (msg : String)
    (hq : stmt.queryRows = .error msg) :
    (∀ n : Nat, stmt.executeRes = .ok n →
      execute_statement (.ok stmt) = .ok ([], []))
    ∧ ∀ e : String, stmt.executeRes = .error e →
        execute_statement (.ok stmt) = .error (.DatabaseError e) := by
  constructor
  · intro n hn
    simp [execute_statement, hq, hn]
  · intro e he
    simp [execute_statement, hq, he]

/-- C6 witness: a rejected query with a succeeding execute fallback yields
empty columns and rows; a failing fallback surfaces the engine message as
`DatabaseError`. -/
theorem c6_witness :
    execute_statement (.ok ⟨[], .error "not a query", .ok 0⟩) = .ok ([], [])
    ∧ execute_statement (.ok ⟨[], .error "not a query", .error "constraint violated"⟩) =
      .error (.DatabaseError "constraint violated") := by
  constructor
  · exact (c6_query_rejection_fallback _ "not a query" rfl).1 0 rfl
  · exact (c6_query_rejection_fallback _ "not a query" rfl).2 "constraint violated" rfl

/-- C7: every value whose decode fails during result marshalling is
reported as `DatabaseError` with exactly the message
"Failed to convert value" — the specific decode error is discarded — and
the row is never emitted with a replacement value (the whole execute
errors). -/
theorem c7_decode_failure_database_error (v : ValueRef) (e : String)
    (h : value_to_term v = .error e) :
    convert_value v = .error (.DatabaseError "Failed to convert value")
    ∧ ∀ stmt : PreparedStmt, stmt.queryRows = .ok [[v]] →
        execute_statement (.ok stmt) =
          .error (.DatabaseError "Failed to convert value") := by
  have hc : convert_value v = .error (.DatabaseError "Failed to convert value") := by
    simp [convert_value, h]
  refine ⟨hc, fun stmt hq => ?_⟩
  simp [execute_statement, hq, runRows, decodeRowAt,
    show List.range 1 = [0] from rfl, decodeCols, getRef, hc]

/-- C7 witness: invalid UTF-8 text fails decode and the execute surfaces
exactly `DatabaseError("Failed to convert value")`. -/
theorem c7_witness :
    convert_value (ValueRef.Text [255]) =
      .error (DuckyError.DatabaseError "Failed to convert value")
    ∧ execute_statement (.ok ⟨["c"], .ok [[ValueRef.Text [255]]], .ok 0⟩) =
      .error (.DatabaseError "Failed to convert value") := by
  have h := c7_decode_failure_database_error (ValueRef.Text [255]) "Invalid UTF-8"
    (by simp [show validUtf8 [255] = false from rfl])
  exact ⟨h.1, h.2 _ rfl⟩

/-- C8: against a connection whose mutex is poisoned, close and execute
both return a `DatabaseError` describing the lock failure instead of
proceeding or reporting success. -/
theorem c8_poisoned_lock_errors (params : List HostTerm)
    (prep : Except String PreparedStmt) :
    close LockState.poisoned =
      .error (.DatabaseError
        "Connection mutex poisoned: poisoned lock: another task failed inside")
    ∧ execute_query LockState.poisoned params prep =
      .error (.DatabaseError
        "Failed to lock connection: poisoned lock: another task failed inside") :=
  ⟨rfl, rfl⟩

/-- C9: a result-producing query yielding zero rows returns empty column
names as well as empty rows (names are resolved only up to the column
count detected from the first row), making it indistinguishable from a
no-result statement whose fallback execute succeeded. -/
theorem c9_zero_rows_empty_result (stmt : PreparedStmt)
    (h : stmt.queryRows = .ok []) :
    execute_statement (.ok stmt) = .ok ([], [])
    ∧ ∀ stmt2 : PreparedStmt, ∀ msg : String, ∀ n : Nat,
        stmt2.queryRows = .error msg → stmt2.executeRes = .ok n →
        execute_statement (.ok stmt) = execute_statement (.ok stmt2) := by
  have h1 : execute_statement (.ok stmt) = .ok ([], []) := by
    simp [execute_statement, h, runRows, List.range_zero]
  refine ⟨h1, fun stmt2 msg n hq he => ?_⟩
  rw [h1]
  simp [execute_statement, hq, he]

/-- C9 witness: a statement with a declared column name but zero produced
rows still returns empty column names and rows. -/
theorem c9_witness :
    execute_statement (.ok ⟨["x"], .ok [], .ok 0⟩) = .ok ([], []) :=
  (c9_zero_rows_empty_result ⟨["x"], .ok [], .ok 0⟩ rfl).1

end Ducky
